import Mathlib

/-!
Verification of the per-channel detection-orchestration and stability-gating
engine of the ai_vision_multiprocessing repository.

The development shallowly embeds the relevant code:

* `Detection.update_stability`, `Detection.worker_cycle` and their helpers
  embed `Detection._bbox_area`, `Detection._iou`, `Detection._update_stability`,
  `Detection._hamming_distance` and the per-frame body of
  `Detection.start_worker` from `ray_actors/video_processor.py`.
  Calls into external collaborators (the YOLO detector, OpenCV focus/hash
  image operations, the OCR engine and the webhook transport) are modelled
  as inputs of each cycle: the detection list, the focus value and perceptual
  hash computed for the candidate region, the OCR result and the boolean
  delivery outcome.  Python floats are modelled as rationals and Python ints
  as unbounded integers.
* `DetectionManager.add/start/stop/remove` embed the channel manager of
  `ray_actors/video_processor.py`; `Except` models a raised Python
  exception, and the list of `StopAction`s records the order of the
  stop-signal and thread-join effects inside `stop`.
* `RTSPReader.get_latest` and `reader_step` embed the persistent RTSP
  reader shared by `run_test/app.py` and `med_service/app.py` (the two
  copies are identical); a small explicit buffer store models numpy buffer
  identity so that `img.copy()` is distinguishable from returning the
  stored reference.
-/

unseal Rat.add Rat.mul Rat.inv Rat.sub

/-- Bounding box in pixel coordinates, the `[x1, y1, x2, y2]` lists of
`video_processor.py` (coordinates are Python ints). -/
structure BBox where
  x1 : Int
  y1 : Int
  x2 : Int
  y2 : Int
deriving Repr, DecidableEq

/-- One parsed YOLO detection: the `(bbox, cls_id, conf)` triples built in
`Detection.start_worker` (lines 291-300). -/
structure Det where
  bbox : BBox
  cls_id : Int
  conf : ℚ
deriving Repr, DecidableEq

namespace Detection

/-- `self.min_stable_frames = 5` -/
def min_stable_frames : Nat := 5

/-- `self.iou_threshold = 0.6` -/
def iou_threshold : ℚ := 6 / 10

/-- `self.min_area_ratio = 0.03` -/
def min_area_ratio : ℚ := 3 / 100

/-- `self.focus_laplacian_thresh = 120.0` -/
def focus_laplacian_thresh : ℚ := 120

/-- `self.ocr_cooldown_frames = 30` -/
def ocr_cooldown_frames : Int := 30

/-- `Detection._bbox_area`: `max(0, x2 - x1) * max(0, y2 - y1)`. -/
def bbox_area (b : BBox) : Int :=
  max 0 (b.x2 - b.x1) * max 0 (b.y2 - b.y1)

/-- `Detection._iou`: intersection over union of two boxes, `0.0` when the
union is not positive. -/
def iou (a b : BBox) : ℚ :=
  let inter_x1 := max a.x1 b.x1
  let inter_y1 := max a.y1 b.y1
  let inter_x2 := min a.x2 b.x2
  let inter_y2 := min a.y2 b.y2
  let inter_w := max 0 (inter_x2 - inter_x1)
  let inter_h := max 0 (inter_y2 - inter_y1)
  let inter_area := inter_w * inter_h
  let union := bbox_area a + bbox_area b - inter_area
  if union ≤ 0 then 0 else (inter_area : ℚ) / (union : ℚ)

/-- `max(dets, key=lambda d: d[2])` for a nonempty list: Python `max` keeps
the first element among ties, replacing the running best only on a strictly
greater key.  Returns `none` for the empty list (the code guards with
`if not dets`). -/
def maxByConf : List Det → Option Det
  | [] => none
  | d :: ds => some (ds.foldl (fun best x => if best.conf < x.conf then x else best) d)

/-- The tracked candidate object: the dict
`{ 'bbox': ..., 'cls_id': ..., 'count': ... }` stored in
`self._stable_target`. -/
structure StableTarget where
  bbox : BBox
  cls_id : Int
  count : Nat
deriving Repr, DecidableEq

/-- The per-channel mutable state of a `Detection` worker that the claims
are about: `self._stable_target`, `self._cooldown_remaining`,
`self._last_roi_hash`, `self._last_text_signature`. -/
structure DetState where
  stable_target : Option StableTarget
  cooldown_remaining : Int
  last_roi_hash : Option Nat
  last_text_signature : Option String
deriving Repr, DecidableEq

/-- The state set up by `Detection.__init__`. -/
def initState : DetState :=
  { stable_target := none
    cooldown_remaining := 0
    last_roi_hash := none
    last_text_signature := none }

/-- `Detection._update_stability` (video_processor.py lines 98-133),
returning the updated state together with the returned boolean. -/
def update_stability (st : DetState) (dets : List Det) (w h : Nat) : DetState × Bool :=
  match maxByConf dets with
  | none =>
      ({ st with stable_target := none, cooldown_remaining := 0 }, false)
  | some best =>
      if (bbox_area best.bbox : ℚ) < min_area_ratio * ((w : ℚ) * (h : ℚ)) then
        ({ st with stable_target := none, cooldown_remaining := 0 }, false)
      else
        match st.stable_target with
        | some t =>
            if t.cls_id = best.cls_id then
              if iou_threshold ≤ iou t.bbox best.bbox then
                let t2 : StableTarget := { t with count := t.count + 1, bbox := best.bbox }
                ({ st with stable_target := some t2 },
                 decide (min_stable_frames ≤ t2.count))
              else
                ({ st with stable_target := some ⟨best.bbox, best.cls_id, 1⟩,
                           cooldown_remaining := 0 },
                 decide (min_stable_frames ≤ 1))
            else
              ({ st with stable_target := some ⟨best.bbox, best.cls_id, 1⟩,
                         cooldown_remaining := 0 },
               decide (min_stable_frames ≤ 1))
        | none =>
            ({ st with stable_target := some ⟨best.bbox, best.cls_id, 1⟩,
                       cooldown_remaining := 0 },
             decide (min_stable_frames ≤ 1))

/-- Fuel-driven binary-digit count; with fuel at least the number itself it
computes the population count. -/
def popcountAux : Nat → Nat → Nat
  | 0, _ => 0
  | fuel + 1, n => if n = 0 then 0 else n % 2 + popcountAux fuel (n / 2)

/-- Number of set bits of a natural number, the value of
`bin(x).count('1')` for a nonnegative Python int. -/
def popcount (n : Nat) : Nat := popcountAux n n

/-- `Detection._hamming_distance`: `bin(a ^ b).count('1')`.  The average
hashes produced by `Detection._ahash` are nonnegative, so `Nat` suffices. -/
def hamming_distance (a b : Nat) : Nat := popcount (Nat.xor a b)

/-- The duplicate-region test of `Detection.start_worker` line 327:
`self._last_roi_hash is not None and self._hamming_distance(roi_hash,
self._last_roi_hash) <= 2`. -/
def is_duplicate_roi (last : Option Nat) (roi_hash : Nat) : Bool :=
  match last with
  | none => false
  | some prev => decide (hamming_distance roi_hash prev ≤ 2)

/-- The OCR result fields consumed by the worker loop; produced by the
external `OCRProcessor.process_frame` collaborator. -/
structure OcrResult where
  text : String
  lot : String
  expiry : String
  text_count : Nat
deriving Repr, DecidableEq

/-- The default `ocr_results` dict built at `start_worker` lines 310-318,
used whenever OCR does not run this cycle. -/
def emptyOcrResult : OcrResult :=
  { text := "", lot := "", expiry := "", text_count := 0 }

/-- The deduplication signature of `start_worker` line 350:
`f"{lot}|{expiry}|{text[:64]}"`. -/
def text_signature (r : OcrResult) : String :=
  r.lot ++ "|" ++ r.expiry ++ "|" ++ r.text.take 64

/-- Everything one iteration of the worker loop receives from the outside
world: the parsed detections and frame shape, the focus value and
perceptual hash that OpenCV computes for the candidate region, the OCR
result that the recognizer would return if invoked, and the boolean
outcome `Webhook.send_webhook` would return if invoked. -/
structure CycleInput where
  dets : List Det
  frameW : Nat
  frameH : Nat
  focusVal : ℚ
  roiHash : Nat
  ocrResult : OcrResult
  webhookOk : Bool
deriving Repr, DecidableEq

/-- The observable outcome of one worker iteration: the `ocr_triggered`
flag, whether `Webhook.send_webhook` was invoked at all, and the `sent`
flag. -/
structure CycleOutput where
  ocr_triggered : Bool
  webhook_called : Bool
  sent : Bool
deriving Repr, DecidableEq

/-- The cooldown bookkeeping of `start_worker` lines 305-306:
`if self._cooldown_remaining > 0: self._cooldown_remaining -= 1`. -/
def cooldown_tick (st : DetState) : DetState :=
  if 0 < st.cooldown_remaining then
    { st with cooldown_remaining := st.cooldown_remaining - 1 }
  else st

/-- The delivery block of `start_worker` lines 347-363: the webhook is
invoked only when OCR actually ran, produced some text, and the signature
changed; a successful delivery records the new signature. -/
def webhook_phase (st : DetState) (triggered : Bool) (r : OcrResult)
    (webhookOk : Bool) : DetState × CycleOutput :=
  if triggered && decide (0 < r.text_count) then
    let sig := text_signature r
    if st.last_text_signature ≠ some sig then
      if webhookOk then
        ({ st with last_text_signature := some sig },
         { ocr_triggered := triggered, webhook_called := true, sent := true })
      else
        (st, { ocr_triggered := triggered, webhook_called := true, sent := false })
    else
      (st, { ocr_triggered := triggered, webhook_called := false, sent := false })
  else
    (st, { ocr_triggered := triggered, webhook_called := false, sent := false })

/-- One iteration of the worker loop of `Detection.start_worker`
(video_processor.py lines 302-363), from the point where the detections
have been parsed: stability update, cooldown management, the
focus/duplicate gate around the OCR call, and the webhook delivery
block. -/
def worker_cycle (st : DetState) (inp : CycleInput) : DetState × CycleOutput :=
  let p := update_stability st inp.dets inp.frameW inp.frameH
  let st2 := cooldown_tick p.1
  let do_ocr := p.2 && decide (st2.cooldown_remaining = 0)
  if do_ocr && st2.stable_target.isSome then
    if decide (focus_laplacian_thresh ≤ inp.focusVal) &&
        !is_duplicate_roi st2.last_roi_hash inp.roiHash then
      webhook_phase
        { st2 with last_roi_hash := some inp.roiHash,
                   cooldown_remaining := ocr_cooldown_frames }
        true inp.ocrResult inp.webhookOk
    else
      webhook_phase
        { st2 with cooldown_remaining := max st2.cooldown_remaining (ocr_cooldown_frames / 2) }
        false emptyOcrResult inp.webhookOk
  else
    webhook_phase st2 false emptyOcrResult inp.webhookOk

/-- State after running the worker loop body over a list of cycle inputs. -/
def run_cycles : DetState → List CycleInput → DetState
  | st, [] => st
  | st, i :: is => run_cycles (worker_cycle st i).1 is

/-- Per-cycle outputs of the worker loop over a list of cycle inputs. -/
def cycle_outputs : DetState → List CycleInput → List CycleOutput
  | _, [] => []
  | st, i :: is =>
      (worker_cycle st i).2 :: cycle_outputs (worker_cycle st i).1 is

/-- The per-frame data that `_update_stability` consumes: the parsed
detections and the frame shape. -/
structure FrameData where
  dets : List Det
  frameW : Nat
  frameH : Nat
deriving Repr, DecidableEq

/-- `update_stability` applied to one `FrameData`. -/
def stab_step (st : DetState) (f : FrameData) : DetState × Bool :=
  update_stability st f.dets f.frameW f.frameH

/-- A frame on which the highest-confidence detection exists, passes the
minimum-area filter, and — when a target is already stored — has the
stored class id and IoU at least the threshold with the stored box. -/
def stepOkB (st : DetState) (f : FrameData) : Bool :=
  match maxByConf f.dets with
  | none => false
  | some best =>
      !decide ((bbox_area best.bbox : ℚ) <
          min_area_ratio * ((f.frameW : ℚ) * (f.frameH : ℚ))) &&
      (match st.stable_target with
       | none => true
       | some t =>
           decide (t.cls_id = best.cls_id) &&
           decide (iou_threshold ≤ iou t.bbox best.bbox))

/-- Every frame of the list satisfies `stepOkB` at the state reached when
it is processed. -/
def goodTraceB : DetState → List FrameData → Bool
  | _, [] => true
  | st, f :: fs => stepOkB st f && goodTraceB (stab_step st f).1 fs

/-- The stability booleans reported by `_update_stability` along a list of
frames. -/
def stab_outputs : DetState → List FrameData → List Bool
  | _, [] => []
  | st, f :: fs => (stab_step st f).2 :: stab_outputs (stab_step st f).1 fs

/-- The consecutive-match count stored in the tracker, `0` when no target
exists. -/
def tcount (st : DetState) : Nat :=
  match st.stable_target with
  | none => 0
  | some t => t.count

/-- A cycle input whose frame matches the already-stored target (class
and IoU) and passes the area filter. -/
def cycleStepOkB (st : DetState) (inp : CycleInput) : Bool :=
  st.stable_target.isSome && stepOkB st ⟨inp.dets, inp.frameW, inp.frameH⟩

/-- Every cycle input of the list matches the target stored in the state
reached when it is processed. -/
def matchingTrace : DetState → List CycleInput → Bool
  | _, [] => true
  | st, i :: is => cycleStepOkB st i && matchingTrace (worker_cycle st i).1 is

/-- The gate of `start_worker` lines 305-329 fully open: the tracker
reports stable, the cooldown has reached zero after the decrement, a
target is stored, the region is sharp enough and not a duplicate — the
exact condition under which `ocr.process_frame` is invoked this cycle. -/
def recognition_fires (st : DetState) (inp : CycleInput) : Bool :=
  let p := update_stability st inp.dets inp.frameW inp.frameH
  let st2 := cooldown_tick p.1
  (p.2 && decide (st2.cooldown_remaining = 0) && st2.stable_target.isSome) &&
  (decide (focus_laplacian_thresh ≤ inp.focusVal) &&
    !is_duplicate_roi st2.last_roi_hash inp.roiHash)

/-- The state invariant of claim C10: the cooldown counter is never
negative and a stored target always has a count of at least 1. -/
def inv (st : DetState) : Prop :=
  0 ≤ st.cooldown_remaining ∧ ∀ t, st.stable_target = some t → 1 ≤ t.count

end Detection

/-- Observable side effects performed by `DetectionManager.stop`, in
order: setting the worker stop event (`Detection.stop_worker`) and joining
the worker thread. -/
inductive StopAction where
  | signal_stop (name : String)
  | join_thread (name : String)
deriving Repr, DecidableEq

/-- Bookkeeping state of `DetectionManager`: `registered` holds the keys
present in both `self.detections` and `self.threads` (`add` always inserts
into both and `remove` deletes from both, so the two dicts share their key
set); `started` holds the names whose thread has had `Thread.start()`
called. -/
structure ManagerState where
  registered : List String
  started : List String
deriving Repr, DecidableEq

/-- The manager constructed by `DetectionManager.__init__`. -/
def initManager : ManagerState := { registered := [], started := [] }

namespace DetectionManager

/-- `DetectionManager.add` (lines 390-403), keyed by
`detection_params.name`: registers a fresh worker and an unstarted thread
unless the name already exists. -/
def add (st : ManagerState) (name : String) : ManagerState × Bool :=
  if name ∈ st.registered then (st, false)
  else ({ st with registered := st.registered ++ [name] }, true)

/-- `DetectionManager.start` (lines 406-413).  `Thread.start()` raises
`RuntimeError` when called twice on the same thread; `Except.error` models
the raised exception. -/
def start (st : ManagerState) (name : String) : Except String (ManagerState × Bool) :=
  if name ∈ st.registered then
    if name ∈ st.started then Except.error "threads can only be started once"
    else Except.ok ({ st with started := name :: st.started }, true)
  else Except.ok (st, false)

/-- `DetectionManager.stop` (lines 416-425).  For a registered name,
`Detection.stop_worker` sets the stop event and returns `True`, after
which the manager joins the thread and returns `True`; `Thread.join()`
raises `RuntimeError` when the thread was never started, modelled by
`Except.error`.  The `StopAction` list records the order of the performed
effects. -/
def stop (st : ManagerState) (name : String) :
    Except String (ManagerState × Bool × List StopAction) :=
  if name ∈ st.registered then
    if name ∈ st.started then
      Except.ok (st, true, [StopAction.signal_stop name, StopAction.join_thread name])
    else Except.error "cannot join thread before it is started"
  else Except.ok (st, false, [])

/-- `DetectionManager.remove` (lines 428-436): discards the bookkeeping
for a registered name. -/
def remove (st : ManagerState) (name : String) : ManagerState × Bool :=
  if name ∈ st.registered then
    ({ registered := st.registered.erase name, started := st.started.erase name }, true)
  else (st, false)

end DetectionManager

/-- A store of pixel buffers giving numpy arrays an identity: a buffer is
an index into the store, mutation overwrites the content at an index, and
`copy()` allocates a fresh index with the same content.  Frame contents
are modelled as lists of naturals. -/
structure FrameStore where
  bufs : List (List Nat)
deriving Repr, DecidableEq

namespace FrameStore

/-- Content currently held by buffer `r`. -/
def read (s : FrameStore) (r : Nat) : List Nat := s.bufs.getD r []

/-- In-place mutation of buffer `r`. -/
def write (s : FrameStore) (r : Nat) (c : List Nat) : FrameStore :=
  ⟨s.bufs.set r c⟩

/-- Allocate a fresh buffer holding `c`; returns the new store and the new
buffer. -/
def alloc (s : FrameStore) (c : List Nat) : FrameStore × Nat :=
  (⟨s.bufs ++ [c]⟩, s.bufs.length)

end FrameStore

/-- State of the persistent `RTSPReader` of `run_test/app.py` and
`med_service/app.py` (identical in both): the single latest slot
`self._latest` holding a timestamp and a frame buffer, and whether the
capture handle `self._cap` is currently open (it is set to `None` while
the acquisition loop is reconnecting). -/
structure ReaderState where
  latest : Option (Nat × Nat)
  capOpen : Bool
deriving Repr, DecidableEq

/-- The reader right after `RTSPReader.__init__`. -/
def initReader : ReaderState := { latest := none, capOpen := false }

/-- The acquisition-loop events of `RTSPReader._run` that touch the
observable state: a successful retrieve publishing a freshly decoded
frame, a read failure that releases the capture handle and begins a
reconnect, and a successful `_open`. -/
inductive ReaderEvent where
  | publish (ts : Nat) (content : List Nat)
  | read_failure
  | reopen
deriving Repr, DecidableEq

/-- Effect of one acquisition-loop event on the store and reader state.
On `publish`, the freshly decoded frame is stored in the latest slot; on
`read_failure`, the handle is released but — exactly as in `_run`, whose
`finally` block only clears `self._cap` — the latest slot is left
untouched. -/
def reader_step (s : FrameStore) (r : ReaderState) :
    ReaderEvent → FrameStore × ReaderState
  | ReaderEvent.publish ts c =>
      let a := s.alloc c
      (a.1, { r with latest := some (ts, a.2) })
  | ReaderEvent.read_failure => (s, { r with capOpen := false })
  | ReaderEvent.reopen => (s, { r with capOpen := true })

/-- Run a list of acquisition-loop events. -/
def reader_run : FrameStore → ReaderState → List ReaderEvent → FrameStore × ReaderState
  | s, r, [] => (s, r)
  | s, r, e :: es =>
      let p := reader_step s r e
      reader_run p.1 p.2 es

namespace RTSPReader

/-- `RTSPReader.get_latest`: returns `none` when no frame was ever
published, otherwise a freshly allocated copy (`img.copy()`) of the buffer
held in the latest slot. -/
def get_latest (s : FrameStore) (r : ReaderState) : FrameStore × Option Nat :=
  match r.latest with
  | none => (s, none)
  | some (_, ref) =>
      let a := s.alloc (s.read ref)
      (a.1, some a.2)

end RTSPReader

section DemoData

open Detection

/-- Concrete detection used by the witnesses below: a 50 by 50 class-3 box
in a 100 by 100 frame (area 2500, well above the 300 area threshold). -/
def demoDet : Det := ⟨⟨10, 10, 60, 60⟩, 3, 9/10⟩

/-- A frame whose only detection is `demoDet`. -/
def demoFrame : FrameData := ⟨[demoDet], 100, 100⟩

/-- A worker-cycle input carrying `demoFrame`, a sharp region (focus 200),
region hash 5, an OCR result with no text, and a failing webhook. -/
def demoCycleA : CycleInput :=
  { dets := [demoDet], frameW := 100, frameH := 100, focusVal := 200,
    roiHash := 5, ocrResult := emptyOcrResult, webhookOk := false }

/-- Like `demoCycleA` but with a class-4 detection in the same place and
the same region hash. -/
def demoCycleB : CycleInput :=
  { dets := [⟨⟨10, 10, 60, 60⟩, 4, 9/10⟩], frameW := 100, frameH := 100,
    focusVal := 200, roiHash := 5, ocrResult := emptyOcrResult, webhookOk := false }

/-- Nine cycles: five of object A (recognition fires empty at cycle 5 and
records hash 5), then four of object B (the tracker resets and counts back
up to 4). -/
def c3lead : List CycleInput :=
  List.replicate 5 demoCycleA ++ List.replicate 4 demoCycleB

/-- The channel state after the nine cycles of `c3lead`. -/
def c3state : DetState := run_cycles initState c3lead

/-- A state one frame away from firing: a stored class-3 target with
count 4, cooldown 0, and no recorded hash or signature. -/
def fireReadyState : DetState :=
  { stable_target := some ⟨⟨10, 10, 60, 60⟩, 3, 4⟩, cooldown_remaining := 0,
    last_roi_hash := none, last_text_signature := none }

/-- A cycle input on which `fireReadyState` fires with a successful OCR
result and a successful delivery. -/
def fireCycle : CycleInput :=
  { dets := [demoDet], frameW := 100, frameH := 100, focusVal := 200,
    roiHash := 5,
    ocrResult := { text := "LOT ABC123", lot := "ABC123", expiry := "2026-01", text_count := 2 },
    webhookOk := true }

/-- Like `fireCycle` but the webhook delivery fails. -/
def fireCycleFailing : CycleInput :=
  { fireCycle with webhookOk := false }

/-- Like `fireCycle` but with a blurry region: focus 50, below the 120
threshold. -/
def blurCycle : CycleInput :=
  { fireCycle with focusVal := 50 }

/-- A state in mid-cooldown (cooldown 30, as set by a fire) with a stored
class-3 target. -/
def cooldownState : DetState :=
  { stable_target := some ⟨⟨10, 10, 60, 60⟩, 3, 5⟩, cooldown_remaining := 30,
    last_roi_hash := some 5, last_text_signature := none }

/-- A buffer store with no buffers. -/
def emptyStore : FrameStore := ⟨[]⟩

/-- A store holding one frame buffer with content `[1, 2]`. -/
def demoStore : FrameStore := ⟨[[1, 2]]⟩

/-- A reader whose latest slot holds buffer 0 of `demoStore`. -/
def demoReader : ReaderState := { latest := some (0, 0), capOpen := true }

/-- Acquisition events: a successful open, one published frame, then a
read failure that begins a reconnect. -/
def reconnectEvents : List ReaderEvent :=
  [ReaderEvent.reopen, ReaderEvent.publish 1 [7, 7], ReaderEvent.read_failure]

end DemoData

namespace Detection

theorem update_stability_empty (st : DetState) (w h : Nat) :
    update_stability st [] w h =
      ({ st with stable_target := none, cooldown_remaining := 0 }, false) := rfl

theorem update_stability_small (st : DetState) (dets : List Det) (w h : Nat)
    (best : Det) (hb : maxByConf dets = some best)
    (ha : (bbox_area best.bbox : ℚ) < min_area_ratio * ((w : ℚ) * (h : ℚ))) :
    update_stability st dets w h =
      ({ st with stable_target := none, cooldown_remaining := 0 }, false) := by
  simp only [update_stability, hb, if_pos ha]

theorem update_stability_match (st : DetState) (dets : List Det) (w h : Nat)
    (best : Det) (t : StableTarget) (hb : maxByConf dets = some best)
    (ha : ¬ (bbox_area best.bbox : ℚ) < min_area_ratio * ((w : ℚ) * (h : ℚ)))
    (ht : st.stable_target = some t)
    (hcls : t.cls_id = best.cls_id)
    (hiou : iou_threshold ≤ iou t.bbox best.bbox) :
    update_stability st dets w h =
      ({ st with stable_target := some ⟨best.bbox, t.cls_id, t.count + 1⟩ },
       decide (min_stable_frames ≤ t.count + 1)) := by
  simp only [update_stability, hb, if_neg ha, ht, if_pos hcls, if_pos hiou]

theorem update_stability_fresh_none (st : DetState) (dets : List Det) (w h : Nat)
    (best : Det) (hb : maxByConf dets = some best)
    (ha : ¬ (bbox_area best.bbox : ℚ) < min_area_ratio * ((w : ℚ) * (h : ℚ)))
    (ht : st.stable_target = none) :
    update_stability st dets w h =
      ({ st with stable_target := some ⟨best.bbox, best.cls_id, 1⟩,
                 cooldown_remaining := 0 }, false) := by
  simp only [update_stability, hb, if_neg ha, ht]
  simp [min_stable_frames]

theorem update_stability_fresh_cls (st : DetState) (dets : List Det) (w h : Nat)
    (best : Det) (t : StableTarget) (hb : maxByConf dets = some best)
    (ha : ¬ (bbox_area best.bbox : ℚ) < min_area_ratio * ((w : ℚ) * (h : ℚ)))
    (ht : st.stable_target = some t)
    (hcls : ¬ t.cls_id = best.cls_id) :
    update_stability st dets w h =
      ({ st with stable_target := some ⟨best.bbox, best.cls_id, 1⟩,
                 cooldown_remaining := 0 }, false) := by
  simp only [update_stability, hb, if_neg ha, ht, if_neg hcls]
  simp [min_stable_frames]

theorem update_stability_fresh_iou (st : DetState) (dets : List Det) (w h : Nat)
    (best : Det) (t : StableTarget) (hb : maxByConf dets = some best)
    (ha : ¬ (bbox_area best.bbox : ℚ) < min_area_ratio * ((w : ℚ) * (h : ℚ)))
    (ht : st.stable_target = some t)
    (hcls : t.cls_id = best.cls_id)
    (hiou : ¬ iou_threshold ≤ iou t.bbox best.bbox) :
    update_stability st dets w h =
      ({ st with stable_target := some ⟨best.bbox, best.cls_id, 1⟩,
                 cooldown_remaining := 0 }, false) := by
  simp only [update_stability, hb, if_neg ha, ht, if_pos hcls, if_neg hiou]
  simp [min_stable_frames]

/-- Unpack a `stepOkB` frame into the facts the branch lemmas consume. -/
theorem stepOkB_elim (st : DetState) (f : FrameData) (hs : stepOkB st f = true) :
    ∃ best, maxByConf f.dets = some best ∧
      ¬ (bbox_area best.bbox : ℚ) <
          min_area_ratio * ((f.frameW : ℚ) * (f.frameH : ℚ)) ∧
      ∀ t, st.stable_target = some t →
        t.cls_id = best.cls_id ∧ iou_threshold ≤ iou t.bbox best.bbox := by
  unfold stepOkB at hs
  cases hm : maxByConf f.dets with
  | none => rw [hm] at hs; exact absurd hs (by simp)
  | some best =>
      rw [hm] at hs
      refine ⟨best, rfl, ?_, ?_⟩
      · rw [not_lt]
        cases hst : st.stable_target with
        | none => rw [hst] at hs; simpa using hs
        | some t => rw [hst] at hs; simp at hs; exact hs.1
      · intro t hst
        rw [hst] at hs
        simp at hs
        exact ⟨hs.2.1, hs.2.2⟩

theorem webhook_phase_false (st : DetState) (r : OcrResult) (ok : Bool) :
    webhook_phase st false r ok = (st, ⟨false, false, false⟩) := by
  simp [webhook_phase]

/-- The webhook block never touches the tracker, cooldown or hash state
and echoes the `ocr_triggered` flag. -/
theorem webhook_phase_fields (st : DetState) (triggered : Bool) (r : OcrResult)
    (ok : Bool) :
    (webhook_phase st triggered r ok).1.stable_target = st.stable_target ∧
    (webhook_phase st triggered r ok).1.cooldown_remaining = st.cooldown_remaining ∧
    (webhook_phase st triggered r ok).1.last_roi_hash = st.last_roi_hash ∧
    (webhook_phase st triggered r ok).2.ocr_triggered = triggered := by
  simp only [webhook_phase]
  split
  · split
    · split <;> simp
    · simp
  · simp

/-- The cooldown decrement touches only `cooldown_remaining`. -/
theorem cooldown_tick_fields (st : DetState) :
    (cooldown_tick st).stable_target = st.stable_target ∧
    (cooldown_tick st).last_roi_hash = st.last_roi_hash ∧
    (cooldown_tick st).last_text_signature = st.last_text_signature := by
  unfold cooldown_tick
  split <;> simp

/-- The worker cycle with the stability/cooldown gate closed only updates
the tracker and decrements the cooldown. -/
theorem worker_cycle_gate_closed (st : DetState) (inp : CycleInput)
    (h : ((update_stability st inp.dets inp.frameW inp.frameH).2 &&
        decide ((cooldown_tick
          (update_stability st inp.dets inp.frameW inp.frameH).1).cooldown_remaining = 0) &&
        (cooldown_tick
          (update_stability st inp.dets inp.frameW inp.frameH).1).stable_target.isSome) =
        false) :
    worker_cycle st inp =
      (cooldown_tick (update_stability st inp.dets inp.frameW inp.frameH).1,
       ⟨false, false, false⟩) := by
  simp only [worker_cycle]
  rw [h]
  simp [webhook_phase_false]

/-- The worker cycle when the gate is open and the focus/duplicate check
passes: OCR fires, the region hash is recorded, the full cooldown is set,
and the webhook block runs on the OCR result. -/
theorem worker_cycle_fire (st : DetState) (inp : CycleInput)
    (hstable : (update_stability st inp.dets inp.frameW inp.frameH).2 = true)
    (hcd : (cooldown_tick
        (update_stability st inp.dets inp.frameW inp.frameH).1).cooldown_remaining = 0)
    (hsome : (cooldown_tick
        (update_stability st inp.dets inp.frameW inp.frameH).1).stable_target.isSome = true)
    (hfocus : focus_laplacian_thresh ≤ inp.focusVal)
    (hdup : is_duplicate_roi
        (cooldown_tick
          (update_stability st inp.dets inp.frameW inp.frameH).1).last_roi_hash
        inp.roiHash = false) :
    worker_cycle st inp =
      webhook_phase
        { cooldown_tick (update_stability st inp.dets inp.frameW inp.frameH).1 with
            last_roi_hash := some inp.roiHash,
            cooldown_remaining := ocr_cooldown_frames }
        true inp.ocrResult inp.webhookOk := by
  simp only [worker_cycle]
  rw [hstable, hcd, hsome, hdup]
  simp [hfocus]

/-- The worker cycle when the gate is open but the focus or duplicate
check fails: OCR is skipped and the partial cooldown is applied, leaving
everything else unchanged. -/
theorem worker_cycle_skip (st : DetState) (inp : CycleInput)
    (hstable : (update_stability st inp.dets inp.frameW inp.frameH).2 = true)
    (hcd : (cooldown_tick
        (update_stability st inp.dets inp.frameW inp.frameH).1).cooldown_remaining = 0)
    (hsome : (cooldown_tick
        (update_stability st inp.dets inp.frameW inp.frameH).1).stable_target.isSome = true)
    (hskip : ¬ focus_laplacian_thresh ≤ inp.focusVal ∨
        is_duplicate_roi
          (cooldown_tick
            (update_stability st inp.dets inp.frameW inp.frameH).1).last_roi_hash
          inp.roiHash = true) :
    worker_cycle st inp =
      ({ cooldown_tick (update_stability st inp.dets inp.frameW inp.frameH).1 with
           cooldown_remaining :=
             max (cooldown_tick
               (update_stability st inp.dets inp.frameW inp.frameH).1).cooldown_remaining
               (ocr_cooldown_frames / 2) },
       ⟨false, false, false⟩) := by
  simp only [worker_cycle]
  rcases hskip with hfocus | hdup
  · have hf : decide (focus_laplacian_thresh ≤ inp.focusVal) = false := by
      simpa using hfocus
    rw [hstable, hcd, hsome, hf]
    simp [webhook_phase_false]
  · rw [hstable, hcd, hsome, hdup]
    simp [webhook_phase_false]

/-- `_update_stability` never touches the hash or signature state. -/
theorem update_stability_preserves (st : DetState) (dets : List Det) (w h : Nat) :
    (update_stability st dets w h).1.last_roi_hash = st.last_roi_hash ∧
    (update_stability st dets w h).1.last_text_signature = st.last_text_signature := by
  unfold update_stability
  (repeat' split) <;> simp

/-- Exactly one of the three worker-cycle shapes applies: gate closed,
gate open but skipped on focus/duplicate, or a recognition fire. -/
theorem worker_cycle_cases (st : DetState) (inp : CycleInput) :
    worker_cycle st inp =
      (cooldown_tick (update_stability st inp.dets inp.frameW inp.frameH).1,
       ⟨false, false, false⟩) ∨
    worker_cycle st inp =
      ({ cooldown_tick (update_stability st inp.dets inp.frameW inp.frameH).1 with
           cooldown_remaining :=
             max (cooldown_tick
               (update_stability st inp.dets inp.frameW inp.frameH).1).cooldown_remaining
               (ocr_cooldown_frames / 2) },
       ⟨false, false, false⟩) ∨
    worker_cycle st inp =
      webhook_phase
        { cooldown_tick (update_stability st inp.dets inp.frameW inp.frameH).1 with
            last_roi_hash := some inp.roiHash,
            cooldown_remaining := ocr_cooldown_frames }
        true inp.ocrResult inp.webhookOk := by
  by_cases hstable : (update_stability st inp.dets inp.frameW inp.frameH).2 = true
  · by_cases hcd : (cooldown_tick
        (update_stability st inp.dets inp.frameW inp.frameH).1).cooldown_remaining = 0
    · by_cases hsome : (cooldown_tick
          (update_stability st inp.dets inp.frameW inp.frameH).1).stable_target.isSome = true
      · by_cases hfocus : focus_laplacian_thresh ≤ inp.focusVal
        · by_cases hdup : is_duplicate_roi
              (cooldown_tick
                (update_stability st inp.dets inp.frameW inp.frameH).1).last_roi_hash
              inp.roiHash = true
          · exact Or.inr (Or.inl (worker_cycle_skip st inp hstable hcd hsome (Or.inr hdup)))
          · exact Or.inr (Or.inr (worker_cycle_fire st inp hstable hcd hsome hfocus
              (by simpa using hdup)))
        · exact Or.inr (Or.inl (worker_cycle_skip st inp hstable hcd hsome (Or.inl hfocus)))
      · refine Or.inl (worker_cycle_gate_closed st inp ?_)
        simp only [Bool.not_eq_true] at hsome
        simp [hsome]
    · refine Or.inl (worker_cycle_gate_closed st inp ?_)
      simp [hcd]
  · refine Or.inl (worker_cycle_gate_closed st inp ?_)
    simp only [Bool.not_eq_true] at hstable
    simp [hstable]

/-- Full behaviour of the webhook block. -/
theorem webhook_phase_spec (st : DetState) (triggered : Bool) (r : OcrResult)
    (ok : Bool) :
    ((webhook_phase st triggered r ok).2.webhook_called = true ↔
      triggered = true ∧ 0 < r.text_count ∧
        st.last_text_signature ≠ some (text_signature r)) ∧
    ((webhook_phase st triggered r ok).2.sent = true ↔
      (webhook_phase st triggered r ok).2.webhook_called = true ∧ ok = true) ∧
    ((webhook_phase st triggered r ok).2.sent = true →
      (webhook_phase st triggered r ok).1.last_text_signature = some (text_signature r)) ∧
    ((webhook_phase st triggered r ok).2.sent = false →
      (webhook_phase st triggered r ok).1.last_text_signature = st.last_text_signature) := by
  simp only [webhook_phase]
  split
  · split
    · split <;> simp_all
    · simp_all
  · simp_all

/-- On a `stepOkB` frame the consecutive-match count grows by one and the
reported stability compares the new count with `min_stable_frames`. -/
theorem stepOk_step (st : DetState) (f : FrameData) (hs : stepOkB st f = true) :
    tcount (stab_step st f).1 = tcount st + 1 ∧
    (stab_step st f).2 = decide (min_stable_frames ≤ tcount st + 1) := by
  obtain ⟨best, hb, ha, htgt⟩ := stepOkB_elim st f hs
  cases hst : st.stable_target with
  | none =>
      have he := update_stability_fresh_none st f.dets f.frameW f.frameH best hb ha hst
      unfold stab_step
      rw [he]
      simp [tcount, hst, min_stable_frames]
  | some t =>
      obtain ⟨hcls, hiou⟩ := htgt t hst
      have he := update_stability_match st f.dets f.frameW f.frameH best t hb ha hst hcls hiou
      unfold stab_step
      rw [he]
      simp [tcount, hst]

/-- Along a trace of `stepOkB` frames the count grows one per frame, so the
stability report at frame `i` (0-based) compares `tcount st + i + 1` with
the minimum. -/
theorem stab_outputs_good (fs : List FrameData) : ∀ st, goodTraceB st fs = true →
    ∀ i, i < fs.length →
      (stab_outputs st fs).getD i true =
        decide (min_stable_frames ≤ tcount st + i + 1) := by
  induction fs with
  | nil => intro st _ i hi; exact absurd hi (by simp)
  | cons f fs ih =>
      intro st hg i hi
      have hg' : stepOkB st f = true ∧ goodTraceB (stab_step st f).1 fs = true := by
        simpa [goodTraceB, Bool.and_eq_true] using hg
      obtain ⟨hcnt, hout⟩ := stepOk_step st f hg'.1
      cases i with
      | zero => simpa [stab_outputs] using hout
      | succ j =>
          have hj : j < fs.length := Nat.lt_of_succ_lt_succ hi
          have hrec := ih (stab_step st f).1 hg'.2 j hj
          rw [hcnt] at hrec
          have harith : tcount st + 1 + j + 1 = tcount st + (j + 1) + 1 := by omega
          rw [harith] at hrec
          simpa [stab_outputs] using hrec

/-- A matching frame while at least two cooldown frames remain: the count
advances, the cooldown decrements, and nothing else happens. -/
theorem matching_cycle_step (st : DetState) (inp : CycleInput)
    (hok : cycleStepOkB st inp = true) (hc : 2 ≤ st.cooldown_remaining) :
    (worker_cycle st inp).1.cooldown_remaining = st.cooldown_remaining - 1 ∧
    (worker_cycle st inp).2 = ⟨false, false, false⟩ := by
  have hok' : st.stable_target.isSome = true ∧
      stepOkB st ⟨inp.dets, inp.frameW, inp.frameH⟩ = true := by
    simpa [cycleStepOkB, Bool.and_eq_true] using hok
  obtain ⟨t, ht⟩ := Option.isSome_iff_exists.mp hok'.1
  obtain ⟨best, hb, ha, htgt⟩ := stepOkB_elim st ⟨inp.dets, inp.frameW, inp.frameH⟩ hok'.2
  obtain ⟨hcls, hiou⟩ := htgt t ht
  have hu := update_stability_match st inp.dets inp.frameW inp.frameH best t hb ha ht hcls hiou
  have hcd1 : (update_stability st inp.dets inp.frameW inp.frameH).1.cooldown_remaining =
      st.cooldown_remaining := by rw [hu]
  have htick : (cooldown_tick
      (update_stability st inp.dets inp.frameW inp.frameH).1).cooldown_remaining =
      st.cooldown_remaining - 1 := by
    unfold cooldown_tick
    rw [if_pos (by rw [hcd1]; omega)]
    simpa using hcd1
  have hgate : ((update_stability st inp.dets inp.frameW inp.frameH).2 &&
      decide ((cooldown_tick
        (update_stability st inp.dets inp.frameW inp.frameH).1).cooldown_remaining = 0) &&
      (cooldown_tick
        (update_stability st inp.dets inp.frameW inp.frameH).1).stable_target.isSome) =
      false := by
    have : ¬ (cooldown_tick
        (update_stability st inp.dets inp.frameW inp.frameH).1).cooldown_remaining = 0 := by
      rw [htick]; omega
    simp [this]
  have hw := worker_cycle_gate_closed st inp hgate
  rw [hw]
  exact ⟨htick, rfl⟩

/-- Along a trace of matching frames, while the remaining cooldown is not
yet exhausted the worker never attempts recognition, and the cooldown
falls by exactly one per frame. -/
theorem matching_trace_no_fire (inps : List CycleInput) : ∀ st : DetState,
    matchingTrace st inps = true →
    ∀ i, i < inps.length → (i : Int) + 1 < st.cooldown_remaining →
      ((cycle_outputs st inps).getD i ⟨true, true, true⟩).ocr_triggered = false ∧
      (run_cycles st (inps.take (i + 1))).cooldown_remaining =
        st.cooldown_remaining - (i + 1) := by
  induction inps with
  | nil => intro st _ i hi; exact absurd hi (by simp)
  | cons inp inps ih =>
      intro st hm i hi hc
      have hm' : cycleStepOkB st inp = true ∧
          matchingTrace (worker_cycle st inp).1 inps = true := by
        simpa [matchingTrace, Bool.and_eq_true] using hm
      have hstep := matching_cycle_step st inp hm'.1 (by omega)
      cases i with
      | zero =>
          refine ⟨by simp [cycle_outputs, hstep.2], ?_⟩
          have h1 : (inp :: inps).take 1 = [inp] := by simp
          rw [h1]
          show (worker_cycle st inp).1.cooldown_remaining = _
          rw [hstep.1]
          push_cast
          omega
      | succ j =>
          have hj : j < inps.length := Nat.lt_of_succ_lt_succ hi
          have hrec := ih (worker_cycle st inp).1 hm'.2 j hj
            (by rw [hstep.1]; push_cast at hc; omega)
          constructor
          · simpa [cycle_outputs] using hrec.1
          · have h2 := hrec.2
            rw [hstep.1] at h2
            have h1 : (inp :: inps).take (j + 1 + 1) = inp :: inps.take (j + 1) := by
              simp [List.take_succ_cons]
            rw [h1]
            show (run_cycles (worker_cycle st inp).1 (inps.take (j + 1))).cooldown_remaining = _
            rw [h2]
            push_cast
            omega

/-- The stability update preserves the C10 invariant. -/
theorem update_stability_inv (st : DetState) (dets : List Det) (w h : Nat)
    (hv : inv st) : inv (update_stability st dets w h).1 := by
  unfold inv at hv ⊢
  unfold update_stability
  (repeat' split) <;> simp_all

/-- The cooldown decrement preserves the C10 invariant. -/
theorem cooldown_tick_inv (st : DetState) (hv : inv st) : inv (cooldown_tick st) := by
  unfold inv at hv ⊢
  unfold cooldown_tick
  split
  · exact ⟨by show (0 : Int) ≤ st.cooldown_remaining - 1; omega, hv.2⟩
  · exact hv

/-- The webhook block preserves the C10 invariant. -/
theorem webhook_phase_inv (st : DetState) (triggered : Bool) (r : OcrResult)
    (ok : Bool) (hv : inv st) : inv (webhook_phase st triggered r ok).1 := by
  obtain ⟨h1, h2, _, _⟩ := webhook_phase_fields st triggered r ok
  constructor
  · rw [h2]; exact hv.1
  · intro t ht; rw [h1] at ht; exact hv.2 t ht

end Detection

open Detection

/-- C1.  For every sequence of per-frame detection lists in which the
highest-confidence detection has the stored target class, IoU at least the
threshold with the stored box and enough area, starting from the empty
tracker state, `_update_stability` reports not-stable on frames 1 through
`min_stable_frames - 1` and stable on frame `min_stable_frames` and on
every subsequent such frame (`min_stable_frames = 5`). -/
theorem c1_stability_threshold (fs : List FrameData)
    (hg : goodTraceB initState fs = true) (i : Nat) (hi : i < fs.length) :
    (stab_outputs initState fs).getD i true =
      decide (min_stable_frames ≤ i + 1) := by
  have h := stab_outputs_good fs initState hg i hi
  simpa [tcount, initState] using h

/-- Witness for C1: six identical class-3 detections above the area
threshold give not-stable at frame 4 (index 3) and stable at frame 5
(index 4). -/
theorem c1_stability_threshold_witness :
    (stab_outputs initState (List.replicate 6 demoFrame)).getD 4 true = true ∧
    (stab_outputs initState (List.replicate 6 demoFrame)).getD 3 true = false := by
  constructor
  · have h := c1_stability_threshold (List.replicate 6 demoFrame) (by decide) 4 (by decide)
    simpa [min_stable_frames] using h
  · have h := c1_stability_threshold (List.replicate 6 demoFrame) (by decide) 3 (by decide)
    simpa [min_stable_frames] using h

/-- C5.  When a target is stored and the best detection passes the area
filter but has a different class id, or the same class id with IoU
strictly below the threshold, `_update_stability` replaces the target with
a fresh one whose count is 1 (not 0) and resets the cooldown to 0. -/
theorem c5_tracking_break_resets (st : DetState) (dets : List Det) (w h : Nat)
    (best : Det) (t : StableTarget)
    (ht : st.stable_target = some t)
    (hb : maxByConf dets = some best)
    (ha : ¬ (bbox_area best.bbox : ℚ) < min_area_ratio * ((w : ℚ) * (h : ℚ)))
    (hbreak : t.cls_id ≠ best.cls_id ∨ iou t.bbox best.bbox < iou_threshold) :
    update_stability st dets w h =
      ({ st with stable_target := some ⟨best.bbox, best.cls_id, 1⟩,
                 cooldown_remaining := 0 }, false) := by
  rcases hbreak with hcls | hiou
  · exact update_stability_fresh_cls st dets w h best t hb ha ht hcls
  · by_cases hcls : t.cls_id = best.cls_id
    · exact update_stability_fresh_iou st dets w h best t hb ha ht hcls (not_le.mpr hiou)
    · exact update_stability_fresh_cls st dets w h best t hb ha ht hcls

/-- Witness for C5: a stored class-3 target at (0,0)-(50,50) and a best
class-3 detection at (60,60)-(100,100) (IoU 0) yield a fresh target with
count 1 and cooldown 0. -/
theorem c5_tracking_break_resets_witness :
    update_stability
      { stable_target := some ⟨⟨0, 0, 50, 50⟩, 3, 4⟩, cooldown_remaining := 7,
        last_roi_hash := some 9, last_text_signature := some "x" }
      [⟨⟨60, 60, 100, 100⟩, 3, 9/10⟩] 100 100 =
      ({ stable_target := some ⟨⟨60, 60, 100, 100⟩, 3, 1⟩, cooldown_remaining := 0,
         last_roi_hash := some 9, last_text_signature := some "x" }, false) :=
  c5_tracking_break_resets
    { stable_target := some ⟨⟨0, 0, 50, 50⟩, 3, 4⟩, cooldown_remaining := 7,
      last_roi_hash := some 9, last_text_signature := some "x" }
    [⟨⟨60, 60, 100, 100⟩, 3, 9/10⟩] 100 100
    ⟨⟨60, 60, 100, 100⟩, 3, 9/10⟩ ⟨⟨0, 0, 50, 50⟩, 3, 4⟩
    rfl rfl (by decide) (Or.inr (by decide))

/-- C6.  A frame whose highest-confidence detection has area below
`min_area_ratio` times the frame area never creates or extends a target:
the tracker resets the target and cooldown and reports not stable, and the
same reset happens when the frame has no detections, for every frame
size. -/
theorem c6_area_filter_resets (st : DetState) (dets : List Det) (w h : Nat) :
    (dets = [] →
      update_stability st dets w h =
        ({ st with stable_target := none, cooldown_remaining := 0 }, false)) ∧
    (∀ best, maxByConf dets = some best →
      (bbox_area best.bbox : ℚ) < min_area_ratio * ((w : ℚ) * (h : ℚ)) →
      update_stability st dets w h =
        ({ st with stable_target := none, cooldown_remaining := 0 }, false)) := by
  constructor
  · rintro rfl
    exact update_stability_empty st w h
  · intro best hb ha
    exact update_stability_small st dets w h best hb ha

/-- Witness for C6: a 5 by 5 detection in a 100 by 100 frame (area 25,
threshold 300) resets an existing target and its cooldown. -/
theorem c6_area_filter_resets_witness :
    update_stability
      { stable_target := some ⟨⟨0, 0, 5, 5⟩, 3, 4⟩, cooldown_remaining := 7,
        last_roi_hash := some 9, last_text_signature := some "x" }
      [⟨⟨0, 0, 5, 5⟩, 3, 1/2⟩] 100 100 =
      ({ stable_target := none, cooldown_remaining := 0,
         last_roi_hash := some 9, last_text_signature := some "x" }, false) :=
  (c6_area_filter_resets _ _ 100 100).2 ⟨⟨0, 0, 5, 5⟩, 3, 1/2⟩ rfl (by decide)

/-- C2.  After a recognition fire sets `cooldown_remaining` to
`ocr_cooldown_frames`, recognition is not attempted on any further frame
until the cooldown has been decremented back to 0: recognition only ever
runs when the post-decrement cooldown is exactly 0 (first conjunct), and
along matching stable frames — which never reset the counter — the
cooldown falls by exactly one per frame with no recognition attempt while
it is still positive (second conjunct). -/
theorem c2_cooldown_suppresses_recognition :
    (∀ (st : DetState) (inp : CycleInput),
      (worker_cycle st inp).2.ocr_triggered = true →
      (cooldown_tick
        (update_stability st inp.dets inp.frameW inp.frameH).1).cooldown_remaining = 0) ∧
    (∀ (st : DetState) (inps : List CycleInput),
      matchingTrace st inps = true →
      ∀ i, i < inps.length → (i : Int) + 1 < st.cooldown_remaining →
        ((cycle_outputs st inps).getD i ⟨true, true, true⟩).ocr_triggered = false ∧
        (run_cycles st (inps.take (i + 1))).cooldown_remaining =
          st.cooldown_remaining - (i + 1)) := by
  constructor
  · intro st inp htrig
    by_contra hcd
    have hgate : ((update_stability st inp.dets inp.frameW inp.frameH).2 &&
        decide ((cooldown_tick
          (update_stability st inp.dets inp.frameW inp.frameH).1).cooldown_remaining = 0) &&
        (cooldown_tick
          (update_stability st inp.dets inp.frameW inp.frameH).1).stable_target.isSome) =
        false := by simp [hcd]
    rw [worker_cycle_gate_closed st inp hgate] at htrig
    exact absurd htrig (by simp)
  · intro st inps hm i hi hc
    exact matching_trace_no_fire inps st hm i hi hc

/-- Witness for C2: a fire from `fireReadyState` happens exactly when the
cooldown reached 0, and from `cooldownState` (cooldown 30) two further
matching stable frames attempt no recognition and decrement the cooldown
to 29. -/
theorem c2_cooldown_suppresses_recognition_witness :
    (cooldown_tick
      (update_stability fireReadyState fireCycle.dets fireCycle.frameW
        fireCycle.frameH).1).cooldown_remaining = 0 ∧
    ((cycle_outputs cooldownState [demoCycleA, demoCycleA]).getD 0
      ⟨true, true, true⟩).ocr_triggered = false ∧
    (run_cycles cooldownState ([demoCycleA, demoCycleA].take (0 + 1))).cooldown_remaining =
      cooldownState.cooldown_remaining - ((0 : Nat) + 1) := by
  refine ⟨c2_cooldown_suppresses_recognition.1 fireReadyState fireCycle (by decide), ?_, ?_⟩
  · exact (c2_cooldown_suppresses_recognition.2 cooldownState [demoCycleA, demoCycleA]
      (by decide) 0 (by decide) (by decide)).1
  · exact (c2_cooldown_suppresses_recognition.2 cooldownState [demoCycleA, demoCycleA]
      (by decide) 0 (by decide) (by decide)).2

/-- C10.  Every per-frame worker cycle preserves the invariant that the
cooldown counter is a non-negative integer and that a stored target always
has a consecutive-match count of at least 1. -/
theorem c10_cycle_preserves_inv (st : DetState) (inp : CycleInput) (hv : inv st) :
    inv (worker_cycle st inp).1 := by
  have hstab := update_stability_inv st inp.dets inp.frameW inp.frameH hv
  have htick := cooldown_tick_inv _ hstab
  rcases worker_cycle_cases st inp with hw | hw | hw <;> rw [hw]
  · exact htick
  · exact ⟨le_max_of_le_right (by decide), htick.2⟩
  · apply webhook_phase_inv
    exact ⟨by show (0 : Int) ≤ ocr_cooldown_frames; decide, htick.2⟩

/-- Witness for C10: the invariant holds initially and is preserved over a
concrete cycle. -/
theorem c10_cycle_preserves_inv_witness : inv (worker_cycle initState demoCycleA).1 :=
  c10_cycle_preserves_inv initState demoCycleA
    ⟨by simp [initState], by intro t ht; simp [initState] at ht⟩

/-- C4.  The webhook is invoked only when recognition actually ran this
cycle, produced a result with text, and the deduplication signature
(lot, expiry, first 64 characters of text) differs from the last one
delivered for the channel; a successful delivery records the new
signature, so an identical later result does not invoke the webhook
again. -/
theorem c4_dispatcher_dedup (st : DetState) (inp : CycleInput) :
    ((worker_cycle st inp).2.webhook_called = true →
      (worker_cycle st inp).2.ocr_triggered = true ∧
      0 < inp.ocrResult.text_count ∧
      st.last_text_signature ≠ some (text_signature inp.ocrResult)) ∧
    ((worker_cycle st inp).2.sent = true →
      (worker_cycle st inp).1.last_text_signature = some (text_signature inp.ocrResult) ∧
      (worker_cycle st inp).2.webhook_called = true) ∧
    (st.last_text_signature = some (text_signature inp.ocrResult) →
      (worker_cycle st inp).2.webhook_called = false) := by
  rcases worker_cycle_cases st inp with hw | hw | hw
  · rw [hw]; simp
  · rw [hw]; simp
  · have hfieldsig :
        ({ cooldown_tick (update_stability st inp.dets inp.frameW inp.frameH).1 with
             last_roi_hash := some inp.roiHash,
             cooldown_remaining := ocr_cooldown_frames } : DetState).last_text_signature =
          st.last_text_signature := by
      show (cooldown_tick
          (update_stability st inp.dets inp.frameW inp.frameH).1).last_text_signature =
        st.last_text_signature
      rw [(cooldown_tick_fields _).2.2]
      exact (update_stability_preserves st inp.dets inp.frameW inp.frameH).2
    rw [hw]
    obtain ⟨hc1, hc2, hc3, _⟩ := webhook_phase_spec
      { cooldown_tick (update_stability st inp.dets inp.frameW inp.frameH).1 with
          last_roi_hash := some inp.roiHash, cooldown_remaining := ocr_cooldown_frames }
      true inp.ocrResult inp.webhookOk
    refine ⟨?_, ?_, ?_⟩
    · intro hcall
      obtain ⟨_, hcount, hne⟩ := hc1.mp hcall
      rw [hfieldsig] at hne
      exact ⟨(webhook_phase_fields _ true _ _).2.2.2, hcount, hne⟩
    · intro hsent
      exact ⟨hc3 hsent, (hc2.mp hsent).1⟩
    · intro heq
      cases hcall : (webhook_phase
          { cooldown_tick (update_stability st inp.dets inp.frameW inp.frameH).1 with
              last_roi_hash := some inp.roiHash, cooldown_remaining := ocr_cooldown_frames }
          true inp.ocrResult inp.webhookOk).2.webhook_called
      · rfl
      · obtain ⟨_, _, hne⟩ := hc1.mp hcall
        rw [hfieldsig] at hne
        exact absurd heq hne

/-- Witness for C4: a successful fire with text and a new signature
records the signature and invoked the webhook. -/
theorem c4_dispatcher_dedup_witness :
    (worker_cycle fireReadyState fireCycle).1.last_text_signature =
      some (text_signature fireCycle.ocrResult) ∧
    (worker_cycle fireReadyState fireCycle).2.webhook_called = true :=
  (c4_dispatcher_dedup fireReadyState fireCycle).2.1 (by decide)

/-- C8.  A failed delivery is surfaced as a boolean: `sent` stays false
and the stored signature is unchanged, so the core performs no retry; an
event whose signature equals the last delivered one is never redelivered;
and a fire with text and a genuinely new signature does attempt
delivery. -/
theorem c8_failed_delivery_no_retry (st : DetState) (inp : CycleInput) :
    ((worker_cycle st inp).2.webhook_called = true → inp.webhookOk = false →
      (worker_cycle st inp).2.sent = false ∧
      (worker_cycle st inp).1.last_text_signature = st.last_text_signature) ∧
    (st.last_text_signature = some (text_signature inp.ocrResult) →
      (worker_cycle st inp).2.sent = false) ∧
    (recognition_fires st inp = true → 0 < inp.ocrResult.text_count →
      st.last_text_signature ≠ some (text_signature inp.ocrResult) →
      (worker_cycle st inp).2.webhook_called = true) := by
  have hfieldsig :
      ({ cooldown_tick (update_stability st inp.dets inp.frameW inp.frameH).1 with
           last_roi_hash := some inp.roiHash,
           cooldown_remaining := ocr_cooldown_frames } : DetState).last_text_signature =
        st.last_text_signature := by
    show (cooldown_tick
        (update_stability st inp.dets inp.frameW inp.frameH).1).last_text_signature =
      st.last_text_signature
    rw [(cooldown_tick_fields _).2.2]
    exact (update_stability_preserves st inp.dets inp.frameW inp.frameH).2
  refine ⟨?_, ?_, ?_⟩
  · rcases worker_cycle_cases st inp with hw | hw | hw
    · rw [hw]; simp
    · rw [hw]; simp
    · rw [hw]
      obtain ⟨hc1, hc2, hc3, hc4⟩ := webhook_phase_spec
        { cooldown_tick (update_stability st inp.dets inp.frameW inp.frameH).1 with
            last_roi_hash := some inp.roiHash, cooldown_remaining := ocr_cooldown_frames }
        true inp.ocrResult inp.webhookOk
      intro _ hfail
      cases hsent : (webhook_phase
          { cooldown_tick (update_stability st inp.dets inp.frameW inp.frameH).1 with
              last_roi_hash := some inp.roiHash, cooldown_remaining := ocr_cooldown_frames }
          true inp.ocrResult inp.webhookOk).2.sent
      · refine ⟨rfl, ?_⟩
        rw [hc4 hsent]
        exact hfieldsig
      · exact absurd (hc2.mp hsent).2 (by rw [hfail]; exact Bool.false_ne_true)
  · intro heq
    rcases worker_cycle_cases st inp with hw | hw | hw
    · rw [hw]
    · rw [hw]
    · rw [hw]
      obtain ⟨hc1, hc2, _, _⟩ := webhook_phase_spec
        { cooldown_tick (update_stability st inp.dets inp.frameW inp.frameH).1 with
            last_roi_hash := some inp.roiHash, cooldown_remaining := ocr_cooldown_frames }
        true inp.ocrResult inp.webhookOk
      cases hsent : (webhook_phase
          { cooldown_tick (update_stability st inp.dets inp.frameW inp.frameH).1 with
              last_roi_hash := some inp.roiHash, cooldown_remaining := ocr_cooldown_frames }
          true inp.ocrResult inp.webhookOk).2.sent
      · rfl
      · obtain ⟨_, _, hne⟩ := hc1.mp (hc2.mp hsent).1
        rw [hfieldsig] at hne
        exact absurd heq hne
  · intro hfire hcount hne
    have hf := hfire
    simp only [recognition_fires, Bool.and_eq_true, Bool.not_eq_true',
      decide_eq_true_eq] at hf
    obtain ⟨⟨⟨hstable, hcd⟩, hsome⟩, hfocus, hdup⟩ := hf
    have hw := worker_cycle_fire st inp hstable hcd hsome hfocus hdup
    rw [hw]
    obtain ⟨hc1, _, _, _⟩ := webhook_phase_spec
      { cooldown_tick (update_stability st inp.dets inp.frameW inp.frameH).1 with
          last_roi_hash := some inp.roiHash, cooldown_remaining := ocr_cooldown_frames }
      true inp.ocrResult inp.webhookOk
    apply hc1.mpr
    refine ⟨rfl, hcount, ?_⟩
    rw [hfieldsig]
    exact hne

/-- Witness for C8: a fire with text and a new signature invokes the
webhook even when delivery fails, and the failed delivery leaves `sent`
false and the stored signature unchanged. -/
theorem c8_failed_delivery_no_retry_witness :
    (worker_cycle fireReadyState fireCycleFailing).2.sent = false ∧
    (worker_cycle fireReadyState fireCycleFailing).1.last_text_signature =
      fireReadyState.last_text_signature := by
  have hcall : (worker_cycle fireReadyState fireCycleFailing).2.webhook_called = true :=
    (c8_failed_delivery_no_retry fireReadyState fireCycleFailing).2.2
      (by decide) (by decide) (by decide)
  exact (c8_failed_delivery_no_retry fireReadyState fireCycleFailing).1 hcall (by decide)

/-- C3 counterexample.  The claim ties the duplicate-suppression hash to
the previous SUCCESSFUL recognition, but the code records the hash at
every recognition run (`start_worker` line 335), successful or not.
Concretely: over `c3lead ++ [demoCycleB]` every OCR invocation returns a
result with no text, so no successful recognition ever happens and, per
the claim, no duplicate skip can apply; at the final cycle the tracker is
stable, the post-decrement cooldown is 0 and the focus score (200) is
above the threshold, so the claim predicts a recognition fire — yet the
code skips (`ocr_triggered = false`), because the region hash matches the
hash recorded at the earlier UNSUCCESSFUL fire of cycle 5. -/
theorem c3_skip_despite_no_successful_recognition :
    (c3lead ++ [demoCycleB]).all
        (fun i => decide (i.ocrResult.text_count = 0)) = true ∧
    (update_stability c3state demoCycleB.dets demoCycleB.frameW demoCycleB.frameH).2 =
      true ∧
    (cooldown_tick
      (update_stability c3state demoCycleB.dets demoCycleB.frameW
        demoCycleB.frameH).1).cooldown_remaining = 0 ∧
    focus_laplacian_thresh ≤ demoCycleB.focusVal ∧
    (worker_cycle c3state demoCycleB).2.ocr_triggered = false := by
  refine ⟨by decide, by decide, by decide, by decide, by decide⟩

/-- C3 (amended).  When the tracker is stable, the post-decrement cooldown
is 0 and a target is stored, recognition is skipped whenever the focus
score is below the threshold (120) or the region hash is within Hamming
distance 2 of the hash recorded at the previous recognition attempt
(recorded whether or not that recognition succeeded); in both skip cases
the cooldown becomes `max(current, ocr_cooldown_frames / 2)` and the
stored hash is unchanged; otherwise recognition fires, the hash is
recorded, and the full cooldown is set whether or not recognition
succeeds. -/
theorem c3_focus_duplicate_gate (st : DetState) (inp : CycleInput)
    (hstable : (update_stability st inp.dets inp.frameW inp.frameH).2 = true)
    (hcd : (cooldown_tick
      (update_stability st inp.dets inp.frameW inp.frameH).1).cooldown_remaining = 0)
    (hsome : (cooldown_tick
      (update_stability st inp.dets inp.frameW inp.frameH).1).stable_target.isSome = true) :
    ((inp.focusVal < focus_laplacian_thresh ∨
        is_duplicate_roi
          (cooldown_tick
            (update_stability st inp.dets inp.frameW inp.frameH).1).last_roi_hash
          inp.roiHash = true) →
      (worker_cycle st inp).2.ocr_triggered = false ∧
      (worker_cycle st inp).1.cooldown_remaining =
        max (cooldown_tick
          (update_stability st inp.dets inp.frameW inp.frameH).1).cooldown_remaining
          (ocr_cooldown_frames / 2) ∧
      (worker_cycle st inp).1.last_roi_hash = st.last_roi_hash) ∧
    ((focus_laplacian_thresh ≤ inp.focusVal ∧
        is_duplicate_roi
          (cooldown_tick
            (update_stability st inp.dets inp.frameW inp.frameH).1).last_roi_hash
          inp.roiHash = false) →
      (worker_cycle st inp).2.ocr_triggered = true ∧
      (worker_cycle st inp).1.cooldown_remaining = ocr_cooldown_frames ∧
      (worker_cycle st inp).1.last_roi_hash = some inp.roiHash) := by
  constructor
  · intro hskip
    have hw := worker_cycle_skip st inp hstable hcd hsome
      (by rcases hskip with hf | hd
          · exact Or.inl (not_le.mpr hf)
          · exact Or.inr hd)
    rw [hw]
    refine ⟨rfl, rfl, ?_⟩
    show (cooldown_tick
        (update_stability st inp.dets inp.frameW inp.frameH).1).last_roi_hash =
      st.last_roi_hash
    rw [(cooldown_tick_fields _).2.1]
    exact (update_stability_preserves st inp.dets inp.frameW inp.frameH).1
  · intro hfire
    have hw := worker_cycle_fire st inp hstable hcd hsome hfire.1 hfire.2
    rw [hw]
    refine ⟨(webhook_phase_fields _ true _ _).2.2.2, ?_, ?_⟩
    · rw [(webhook_phase_fields _ true _ _).2.1]
    · rw [(webhook_phase_fields _ true _ _).2.2.1]

/-- Witness for the amended C3: a blurry region (focus 50) at an otherwise
firing state is skipped, the partial cooldown is applied, and the stored
hash stays unchanged. -/
theorem c3_focus_duplicate_gate_witness :
    (worker_cycle fireReadyState blurCycle).2.ocr_triggered = false ∧
    (worker_cycle fireReadyState blurCycle).1.cooldown_remaining =
      max (cooldown_tick
        (update_stability fireReadyState blurCycle.dets blurCycle.frameW
          blurCycle.frameH).1).cooldown_remaining
        (ocr_cooldown_frames / 2) ∧
    (worker_cycle fireReadyState blurCycle).1.last_roi_hash =
      fireReadyState.last_roi_hash :=
  (c3_focus_duplicate_gate fireReadyState blurCycle (by decide) (by decide)
    (by decide)).1 (Or.inl (by decide))

/-- C7 counterexample.  `stop` on a channel that was added but never
started is not a boolean failure: `Thread.join` raises, modelled here by
an `Except.error` result instead of an `ok` boolean. -/
theorem c7_stop_before_start_raises :
    (DetectionManager.stop (DetectionManager.add initManager "cam1").1 "cam1").isOk =
      false := by decide

/-- C7 (amended).  `stop`, `start`, or `remove` with an unknown name
returns a boolean failure without an exception; `stop` on a registered but
never-started channel raises an exception from the thread join rather
than returning a boolean; `stop` for a registered and started name returns
true only after signalling the worker to stop and then joining its thread
(in that order). -/
theorem c7_lifecycle_booleans (st : ManagerState) (name : String) :
    (name ∉ st.registered →
      DetectionManager.stop st name = Except.ok (st, false, []) ∧
      DetectionManager.start st name = Except.ok (st, false) ∧
      DetectionManager.remove st name = (st, false)) ∧
    (name ∈ st.registered → name ∉ st.started →
      DetectionManager.stop st name =
        Except.error "cannot join thread before it is started") ∧
    (name ∈ st.registered → name ∈ st.started →
      DetectionManager.stop st name =
        Except.ok (st, true,
          [StopAction.signal_stop name, StopAction.join_thread name])) := by
  refine ⟨?_, ?_, ?_⟩
  · intro h
    exact ⟨by simp [DetectionManager.stop, h],
           by simp [DetectionManager.start, h],
           by simp [DetectionManager.remove, h]⟩
  · intro h1 h2
    simp [DetectionManager.stop, h1, h2]
  · intro h1 h2
    simp [DetectionManager.stop, h1, h2]

/-- Witness for the amended C7: stop on a registered started channel
signals then joins and returns true; stop on an unknown name returns a
boolean false. -/
theorem c7_lifecycle_booleans_witness :
    DetectionManager.stop ⟨["a"], ["a"]⟩ "a" =
      Except.ok ((⟨["a"], ["a"]⟩ : ManagerState), true,
        [StopAction.signal_stop "a", StopAction.join_thread "a"]) ∧
    DetectionManager.stop ⟨["a"], ["a"]⟩ "b" =
      Except.ok ((⟨["a"], ["a"]⟩ : ManagerState), false, []) :=
  ⟨(c7_lifecycle_booleans ⟨["a"], ["a"]⟩ "a").2.2 (by decide) (by decide),
   ((c7_lifecycle_booleans ⟨["a"], ["a"]⟩ "b").1 (by decide)).1⟩

theorem read_alloc_fresh (s : FrameStore) (c : List Nat) :
    (s.alloc c).1.read (s.alloc c).2 = c := by
  show (s.bufs ++ [c]).getD s.bufs.length [] = c
  simp [List.getD_eq_getElem?_getD, List.getElem?_concat_length]

theorem read_alloc_old (s : FrameStore) (c : List Nat) (r : Nat)
    (h : r < s.bufs.length) : (s.alloc c).1.read r = s.read r := by
  show (s.bufs ++ [c]).getD r [] = s.bufs.getD r []
  simp [List.getD_eq_getElem?_getD, List.getElem?_append_left h]

theorem read_write_ne (s : FrameStore) (r2 r : Nat) (c : List Nat)
    (h : r2 ≠ r) : (s.write r2 c).read r = s.read r := by
  show (s.bufs.set r2 c).getD r [] = s.bufs.getD r []
  simp [List.getD_eq_getElem?_getD, List.getElem?_set_ne h]

/-- C9 counterexample.  After one published frame and a read failure
(mid-reconnect, `capOpen = false`), `get_latest` does not return the
absent sentinel: it returns a copy (buffer 1) of the stale frame
`[7, 7]`. -/
theorem c9_stale_frame_mid_reconnect :
    (reader_run emptyStore initReader reconnectEvents).2.capOpen = false ∧
    (RTSPReader.get_latest (reader_run emptyStore initReader reconnectEvents).1
      (reader_run emptyStore initReader reconnectEvents).2).2 = some 1 ∧
    (RTSPReader.get_latest (reader_run emptyStore initReader reconnectEvents).1
      (reader_run emptyStore initReader reconnectEvents).2).1.read 1 = [7, 7] := by
  refine ⟨by decide, by decide, by decide⟩

/-- C9 (amended).  `get_latest` returns the absent sentinel only while no
frame has ever been published; otherwise — even mid-reconnect — it
returns a freshly allocated private copy of the latest frame: the copy is
a different buffer with the same content, and writing to the copy changes
neither the content of the stored slot nor the content returned by a
subsequent `get_latest`. -/
theorem c9_get_latest_private_copy (s : FrameStore) (r : ReaderState) :
    (r.latest = none → RTSPReader.get_latest s r = (s, none)) ∧
    (∀ ts ref c, r.latest = some (ts, ref) → ref < s.bufs.length →
      (RTSPReader.get_latest s r).2 = some s.bufs.length ∧
      s.bufs.length ≠ ref ∧
      (RTSPReader.get_latest s r).1.read s.bufs.length = s.read ref ∧
      ((RTSPReader.get_latest s r).1.write s.bufs.length c).read ref = s.read ref ∧
      (RTSPReader.get_latest
        ((RTSPReader.get_latest s r).1.write s.bufs.length c) r).2 =
        some ((RTSPReader.get_latest s r).1.write s.bufs.length c).bufs.length ∧
      (RTSPReader.get_latest
        ((RTSPReader.get_latest s r).1.write s.bufs.length c) r).1.read
        ((RTSPReader.get_latest s r).1.write s.bufs.length c).bufs.length =
        s.read ref) := by
  constructor
  · intro h
    simp [RTSPReader.get_latest, h]
  · intro ts ref c hl hr
    have hne : s.bufs.length ≠ ref := Nat.ne_of_gt hr
    have hge : RTSPReader.get_latest s r =
        ((s.alloc (s.read ref)).1, some s.bufs.length) := by
      simp [RTSPReader.get_latest, hl, FrameStore.alloc]
    have hslot : ((RTSPReader.get_latest s r).1.write s.bufs.length c).read ref =
        s.read ref := by
      rw [hge]
      rw [read_write_ne _ _ _ _ hne]
      exact read_alloc_old s (s.read ref) ref hr
    have hge2 : RTSPReader.get_latest
        ((RTSPReader.get_latest s r).1.write s.bufs.length c) r =
        ((((RTSPReader.get_latest s r).1.write s.bufs.length c).alloc
            (((RTSPReader.get_latest s r).1.write s.bufs.length c).read ref)).1,
         some ((RTSPReader.get_latest s r).1.write s.bufs.length c).bufs.length) := by
      simp [RTSPReader.get_latest, hl, FrameStore.alloc]
    refine ⟨by rw [hge], hne, ?_, hslot, by rw [hge2], ?_⟩
    · rw [hge]
      exact read_alloc_fresh s (s.read ref)
    · rw [hge2]
      exact (read_alloc_fresh _ _).trans hslot

/-- Witness for the amended C9: a one-buffer store and a reader holding
that buffer; the copy is buffer 1, and overwriting it with `[9]` does not
change what the slot holds or what the next call returns. -/
theorem c9_get_latest_private_copy_witness :
    (RTSPReader.get_latest demoStore demoReader).2 = some demoStore.bufs.length ∧
    demoStore.bufs.length ≠ 0 ∧
    (RTSPReader.get_latest demoStore demoReader).1.read demoStore.bufs.length =
      demoStore.read 0 ∧
    ((RTSPReader.get_latest demoStore demoReader).1.write demoStore.bufs.length
      [9]).read 0 = demoStore.read 0 ∧
    (RTSPReader.get_latest
      ((RTSPReader.get_latest demoStore demoReader).1.write demoStore.bufs.length
        [9]) demoReader).2 =
      some ((RTSPReader.get_latest demoStore demoReader).1.write
        demoStore.bufs.length [9]).bufs.length ∧
    (RTSPReader.get_latest
      ((RTSPReader.get_latest demoStore demoReader).1.write demoStore.bufs.length
        [9]) demoReader).1.read
      ((RTSPReader.get_latest demoStore demoReader).1.write demoStore.bufs.length
        [9]).bufs.length =
      demoStore.read 0 :=
  (c9_get_latest_private_copy demoStore demoReader).2 0 0 [9] rfl (by decide)
